import Mathlib

/-!
Shallow embedding of `src/badgrclient/badgrmodels.py` (the resource models
Issuer, BadgeClass, Assertion and their shared `Base` class) together with
the theorems settling the claims about it.

Python values that flow through payloads and responses are modelled by
`Val`; the HTTP client collaborator (`BadgrClient._call_api`) is modelled
as an oracle function from requests to either a parsed JSON value or a
transport error.  Every model operation returns the raised-or-returned
outcome, the list of network calls it issued (in order), and the final
state of the entity, so that claims about errors, network traffic and
state mutation can all be stated.
-/

/-- Python values appearing in request payloads and responses: None,
strings, booleans, lists and dicts (dicts as association lists with the
keys unique, matching runtime dict contents). -/
inductive Val where
  | null : Val
  | str (s : String) : Val
  | bool (b : Bool) : Val
  | list (xs : List Val) : Val
  | dict (fields : List (String × Val)) : Val

/-- Python truthiness for the `Val` fragment: None, empty strings, empty
lists and empty dicts are falsy. -/
def Val.truthy : Val → Bool
  | .null => false
  | .str s => s ≠ ""
  | .bool b => b
  | .list xs => !xs.isEmpty
  | .dict fields => !fields.isEmpty

/-- Membership test `k in d` for a dict value (False on non-dicts, which
never occurs at the guarded call sites in the source). -/
def Val.containsKey : Val → String → Bool
  | .dict fields, k => fields.any (fun p => p.1 == k)
  | _, _ => false

/-- Subscript `d[k]` under a `containsKey` guard: first binding of the key,
None when absent (the source only indexes after an `in` check). -/
def Val.lookupKey : Val → String → Val
  | .dict fields, k =>
    match fields.find? (fun p => p.1 == k) with
    | some p => p.2
    | none => .null
  | _, _ => .null

/-- Python `str()` as used by `.format` in endpoint construction.  Only
None, booleans and strings ever reach a format slot in the source (the
entityId); container values get an abstract placeholder. -/
def Val.pyStr : Val → String
  | .null => "None"
  | .bool true => "True"
  | .bool false => "False"
  | .str s => s
  | .list _ => "<list>"
  | .dict _ => "<dict>"

/-- Test for the value None, used to state that an argument was supplied
as something other than None. -/
def Val.isNull : Val → Bool
  | .null => true
  | _ => false

/-- Transport-level failure raised by `BadgrClient._call_api` on a non-2xx
response: status code plus response body. -/
structure ApiErr where
  status : Nat
  body : Val

/-- Python exceptions the embedded code can raise. -/
inductive PyErr where
  | typeError (msg : String)
  | exceptionMsg (msg : String)
  | keyError (key : String)
  | indexError
  | apiError (e : ApiErr)

/-- Subscript `v[k]` where the key may be missing: KeyError on a missing
key, TypeError on a non-dict. -/
def Val.getItem : Val → String → Except PyErr Val
  | .dict fields, k =>
    match fields.find? (fun p => p.1 == k) with
    | some p => .ok p.2
    | none => .error (.keyError k)
  | _, _ => .error (.typeError "value is not subscriptable")

/-- Subscript `v[0]`: IndexError on an empty list, TypeError on a
non-list. -/
def Val.index0 : Val → Except PyErr Val
  | .list (x :: _) => .ok x
  | .list [] => .error .indexError
  | _ => .error (.typeError "value is not subscriptable")

/-- One request handed to `BadgrClient._call_api`: path, HTTP method, the
optional `data` keyword (JSON body) and the optional `params` keyword
(query parameters).  `badgrmodels.py` never passes `params`. -/
structure ApiCall where
  path : String
  method : String
  data : Option Val
  params : Option (List (String × String))

/-- Modelled from the spec: the state of the `BadgrClient` instance a
model is bound to.  The client class itself is not under `src/`; per the
spec it holds the per-issuer Name Cache mapping badge-class display names
to entity ids (`load_badge_names` / `get_eid_from_badge_name`).  The model
code under `src/` never reads this state. -/
structure ClientState where
  badgeNames : List (String × List (String × String))

/-- In-memory state of one resource-model instance: the bound client, the
`entityId` and `data` attributes set by `Base.__init__` / `set_data`, and
the class attribute `ENDPOINT` of the concrete class the instance belongs
to. -/
structure Entity where
  client : ClientState
  entityId : Val
  data : Val
  ENDPOINT : String

/-- The HTTP collaborator: `BadgrClient._call_api` either returns the
parsed JSON response or raises a transport error. -/
abbrev Api := ApiCall → Except ApiErr Val

/-- Outcome of one method invocation: the value returned or exception
raised, the network calls issued in order, and the final entity state. -/
abbrev MRes := Except PyErr Val × List ApiCall × Entity

/-- Constructor `Base.__init__(client)`: stores the client and sets both
`entityId` and `data` to None. -/
def Base.init (client : ClientState) (endpoint : String) : Entity :=
  { client := client, entityId := .null, data := .null, ENDPOINT := endpoint }

/-- Method `Base.set_data(data)`: stores `data`, overwrites `entityId`
only when the dict has an `entityId` key, and returns `self` (in this
state-passing embedding the returned entity is the updated instance
itself). -/
def Base.set_data (self : Entity) (data : Val) : Entity :=
  let self := { self with data := data }
  if data.containsKey "entityId" then
    { self with entityId := data.lookupKey "entityId" }
  else
    self

/-- Method `Base.get_entity_ep()`: `self.ENDPOINT + "/" + str(self.entityId)`. -/
def Base.get_entity_ep (self : Entity) : String :=
  self.ENDPOINT ++ "/" ++ self.entityId.pyStr

/-- Decorator `eid_required(func)`: the source defines the inner wrapper
`check_id` but never returns it, so the decorator body falls off the end
and the decorated class attribute is Python None (here: `none`). -/
def eid_required {α : Type} (_func : α) : Option α :=
  none

/-- Inner wrapper `check_id` of `eid_required` as written in the source
(never installed, since the decorator does not return it): call through
when `self.entityId` is truthy, raise otherwise. -/
def check_id {α : Type} (func : Entity → α → MRes) : Entity → α → MRes :=
  fun self args =>
    if self.entityId.truthy then func self args
    else (.error (.exceptionMsg "entityId is required for this operation"), [], self)

/-- TypeError raised by Python when an attribute holding None is called. -/
def noneNotCallable : PyErr :=
  .typeError "NoneType object is not callable"

/-- Method body `Base.delete(self)`: DELETE the entity endpoint, return
the response. -/
def Base.delete_body (self : Entity) (api : Api) : MRes :=
  let ep := Base.get_entity_ep self
  let call : ApiCall := { path := ep, method := "DELETE", data := none, params := none }
  match api call with
  | .error e => (.error (.apiError e), [call], self)
  | .ok response => (.ok response, [call], self)

/-- Class attribute `Base.delete` after decoration: `eid_required`
returns None. -/
def Base.delete_attr : Option (Entity → Api → MRes) :=
  eid_required Base.delete_body

/-- Invocation `instance.delete()`: looks up the class attribute; calling
None raises TypeError before anything else happens. -/
def Base.delete (self : Entity) (api : Api) : MRes :=
  match Base.delete_attr with
  | some f => f self api
  | none => (.error noneNotCallable, [], self)

/-- Method body `Base.fetch(self)`: GET the entity endpoint, take
`response["result"][0]` and store it with `set_data`. -/
def Base.fetch_body (self : Entity) (api : Api) : MRes :=
  let ep := Base.get_entity_ep self
  let call : ApiCall := { path := ep, method := "GET", data := none, params := none }
  match api call with
  | .error e => (.error (.apiError e), [call], self)
  | .ok response =>
    match (response.getItem "result").bind Val.index0 with
    | .error e => (.error e, [call], self)
    | .ok result => (.ok .null, [call], Base.set_data self result)

/-- Class attribute `Base.fetch` after decoration: None. -/
def Base.fetch_attr : Option (Entity → Api → MRes) :=
  eid_required Base.fetch_body

/-- Invocation `instance.fetch()`. -/
def Base.fetch (self : Entity) (api : Api) : MRes :=
  match Base.fetch_attr with
  | some f => f self api
  | none => (.error noneNotCallable, [], self)

/-- The call site `self.fetch(self.get_entity_ep())` appearing in
`Base.update` and `Issuer.edit_staff`: the class attribute `fetch` is
None (the decorator returned nothing), so the call raises TypeError; and
even if the attribute held `check_id`, the extra positional argument
would be forwarded to a body that accepts none, again a TypeError.
Either way no request is issued and the state is unchanged. -/
def Base.fetch_with_extra_arg (self : Entity) (_ep : String) : MRes :=
  match Base.fetch_attr with
  | none => (.error noneNotCallable, [], self)
  | some _ =>
    (.error (.typeError "fetch takes 1 positional argument but 2 were given"), [], self)

/-- Method body `Base.update(self)`: PUT `self.data` to the entity
endpoint, then `self.fetch(self.get_entity_ep())`, then return the PUT
response. -/
def Base.update_body (self : Entity) (api : Api) : MRes :=
  let ep := Base.get_entity_ep self
  let call : ApiCall := { path := ep, method := "PUT", data := some self.data, params := none }
  match api call with
  | .error e => (.error (.apiError e), [call], self)
  | .ok response =>
    match Base.fetch_with_extra_arg self (Base.get_entity_ep self) with
    | (.error e, fcalls, self) => (.error e, call :: fcalls, self)
    | (.ok _, fcalls, self) => (.ok response, call :: fcalls, self)

/-- Class attribute `Base.update` after decoration: None. -/
def Base.update_attr : Option (Entity → Api → MRes) :=
  eid_required Base.update_body

/-- Invocation `instance.update()`. -/
def Base.update (self : Entity) (api : Api) : MRes :=
  match Base.update_attr with
  | some f => f self api
  | none => (.error noneNotCallable, [], self)

/-- Modelled from the spec: `BadgrClient._deserialize` is part of the
client class, which is not under `src/`; it wraps each dict of a result
list in a model instance.  The claims never look inside its return value,
so it is modelled as the identity on the result list. -/
def BadgrClient.deserialize (_client : ClientState) (result : Val) : Val :=
  result

/-- Class attribute `Assertion.ENDPOINT`. -/
def Assertion.ENDPOINT : String := "/v2/assertions"

/-- Method `Assertion.create(self, badgeclass, recipient_email,
evidence=None)`: build the payload with a top-level `badgeclass` field, a
`recipient` dict and `evidence`; POST it to `/v2/assertions`; store
`response["result"][0]` and return True.  This method is not decorated. -/
def Assertion.create (self : Entity) (api : Api)
    (badgeclass recipient_email evidence : Val) : MRes :=
  let payload : Val := .dict
    [ ("badgeclass", badgeclass),
      ("recipient", .dict [("type", .str "email"), ("identity", recipient_email)]),
      ("evidence", evidence) ]
  let call : ApiCall :=
    { path := Assertion.ENDPOINT, method := "POST", data := some payload, params := none }
  match api call with
  | .error e => (.error (.apiError e), [call], self)
  | .ok response =>
    match (response.getItem "result").bind Val.index0 with
    | .error e => (.error e, [call], self)
    | .ok result => (.ok (.bool true), [call], Base.set_data self result)

/-- Method body `Assertion.revoke(self, reason)`: DELETE
`/v2/assertions/<entityId>`; the `reason` parameter is never used and no
body is attached, so the request is the same one `delete` issues. -/
def Assertion.revoke_body (self : Entity) (api : Api) (_reason : Val) : MRes :=
  let ep := Assertion.ENDPOINT ++ "/" ++ self.entityId.pyStr
  let call : ApiCall := { path := ep, method := "DELETE", data := none, params := none }
  match api call with
  | .error e => (.error (.apiError e), [call], self)
  | .ok response => (.ok response, [call], self)

/-- Class attribute `Assertion.revoke` after decoration: None. -/
def Assertion.revoke_attr : Option (Entity → Api → Val → MRes) :=
  eid_required (fun self api reason => Assertion.revoke_body self api reason)

/-- Invocation `instance.revoke(reason)`. -/
def Assertion.revoke (self : Entity) (api : Api) (reason : Val) : MRes :=
  match Assertion.revoke_attr with
  | some f => f self api reason
  | none => (.error noneNotCallable, [], self)

/-- Class attribute `BadgeClass.ENDPOINT`. -/
def BadgeClass.ENDPOINT : String := "/v2/badgeclasses"

/-- Method body `BadgeClass.fetch_assertions(self, recipient=None,
num=None)`: GET `/v2/badgeclasses/<entityId>/assertions` with no `params`
keyword — both arguments are accepted and then ignored — and return the
deserialized `response["result"]`. -/
def BadgeClass.fetch_assertions_body (self : Entity) (api : Api)
    (_recipient _num : Val) : MRes :=
  let ep := BadgeClass.ENDPOINT ++ "/" ++ self.entityId.pyStr ++ "/assertions"
  let call : ApiCall := { path := ep, method := "GET", data := none, params := none }
  match api call with
  | .error e => (.error (.apiError e), [call], self)
  | .ok response =>
    match response.getItem "result" with
    | .error e => (.error e, [call], self)
    | .ok result => (.ok (BadgrClient.deserialize self.client result), [call], self)

/-- Class attribute `BadgeClass.fetch_assertions` after decoration: None. -/
def BadgeClass.fetch_assertions_attr : Option (Entity → Api → Val → Val → MRes) :=
  eid_required (fun self api recipient num =>
    BadgeClass.fetch_assertions_body self api recipient num)

/-- Invocation `instance.fetch_assertions(recipient, num)`. -/
def BadgeClass.fetch_assertions (self : Entity) (api : Api)
    (recipient num : Val) : MRes :=
  match BadgeClass.fetch_assertions_attr with
  | some f => f self api recipient num
  | none => (.error noneNotCallable, [], self)

/-- Message of the exception raised when both criteria arguments are
falsy (the source message, minus its line-continuation whitespace). -/
def criteriaRequiredMsg : String :=
  "At least one of criteria_text and criteria_url is required"

/-- Method `BadgeClass.create(self, name, image, description, issuer_eid,
criteria_text=None, criteria_url=None, alignment=None, tags=None,
expires=None)`: raise unless `criteria_text or criteria_url` is truthy,
then POST the payload to `/v2/badgeclasses`, store
`response["result"][0]` and return True.  The method is not decorated and
never consults the client Name Cache. -/
def BadgeClass.create (self : Entity) (api : Api)
    (name image description issuer_eid criteria_text criteria_url
      alignment tags expires : Val) : MRes :=
  if !(criteria_text.truthy || criteria_url.truthy) then
    (.error (.exceptionMsg criteriaRequiredMsg), [], self)
  else
    let payload : Val := .dict
      [ ("name", name),
        ("image", image),
        ("issuer", issuer_eid),
        ("description", description),
        ("criteria_text", criteria_text),
        ("criteria_url", criteria_url),
        ("alignments", if alignment.truthy then alignment else .list []),
        ("tags", if tags.truthy then tags else .list []),
        ("expires", expires) ]
    let call : ApiCall :=
      { path := BadgeClass.ENDPOINT, method := "POST", data := some payload, params := none }
    match api call with
    | .error e => (.error (.apiError e), [call], self)
    | .ok response =>
      match (response.getItem "result").bind Val.index0 with
      | .error e => (.error e, [call], self)
      | .ok result => (.ok (.bool true), [call], Base.set_data self result)

/-- Class attribute `Issuer.V1_ENDPOINT`: a template with a `slug`
placeholder. -/
def Issuer.V1_ENDPOINT : String := "/v1/issuer/issuers/\x7bslug\x7d/staff"

/-- Python `template.format(slug=...)`: substitute the `slug` placeholder. -/
def formatSlug (template slug : String) : String :=
  String.intercalate slug (template.splitOn "\x7bslug\x7d")

/-- Class attribute `Issuer.ENDPOINT`. -/
def Issuer.ENDPOINT : String := "/v2/issuers"

/-- Method `Issuer.create(self, name, description, email, url)`: POST the
four fields to `/v2/issuers`, store `response["result"][0]` and return
True.  Not decorated. -/
def Issuer.create (self : Entity) (api : Api)
    (name description email url : Val) : MRes :=
  let payload : Val := .dict
    [ ("name", name), ("description", description), ("email", email), ("url", url) ]
  let call : ApiCall :=
    { path := Issuer.ENDPOINT, method := "POST", data := some payload, params := none }
  match api call with
  | .error e => (.error (.apiError e), [call], self)
  | .ok response =>
    match (response.getItem "result").bind Val.index0 with
    | .error e => (.error e, [call], self)
    | .ok result => (.ok (.bool true), [call], Base.set_data self result)

/-- Method body `Issuer.edit_staff(self, action, email, role)`: validate
`action` against add/modify/remove and `role` against owner/editor/staff
(raising locally on either), POST `{action, email, role}` to the v1 staff
endpoint with `entityId` substituted for the slug, then call
`self.fetch(self.get_entity_ep())` and return the POST response.  The
embedded exception messages drop the quote characters of the source
text. -/
def Issuer.edit_staff_body (self : Entity) (api : Api)
    (action email role : String) : MRes :=
  if !(["add", "modify", "remove"].contains action) then
    (.error (.exceptionMsg "Action must be one of add, modify or remove"), [], self)
  else if !(["owner", "editor", "staff"].contains role) then
    (.error (.exceptionMsg "Action must be one of owner, editor, or staff"), [], self)
  else
    let payload : Val := .dict
      [ ("action", .str action), ("email", .str email), ("role", .str role) ]
    let call : ApiCall :=
      { path := formatSlug Issuer.V1_ENDPOINT self.entityId.pyStr,
        method := "POST", data := some payload, params := none }
    match api call with
    | .error e => (.error (.apiError e), [call], self)
    | .ok response =>
      match Base.fetch_with_extra_arg self (Base.get_entity_ep self) with
      | (.error e, fcalls, self) => (.error e, call :: fcalls, self)
      | (.ok _, fcalls, self) => (.ok response, call :: fcalls, self)

/-- Class attribute `Issuer.edit_staff` after decoration: None. -/
def Issuer.edit_staff_attr : Option (Entity → Api → String → String → String → MRes) :=
  eid_required (fun self api action email role =>
    Issuer.edit_staff_body self api action email role)

/-- Invocation `instance.edit_staff(action, email, role)`. -/
def Issuer.edit_staff (self : Entity) (api : Api)
    (action email role : String) : MRes :=
  match Issuer.edit_staff_attr with
  | some f => f self api action email role
  | none => (.error noneNotCallable, [], self)

/-- A client with an empty Name Cache. -/
def emptyClient : ClientState := { badgeNames := [] }

/-- Transport oracle that fails every request with a 500. -/
def failingApi : Api := fun _ => .error { status := 500, body := .null }

/-- Transport oracle that answers every request with a singleton result
envelope whose entity carries a fresh entityId. -/
def acceptingApi : Api := fun _ =>
  .ok (.dict [("result", .list [Val.dict [("entityId", .str "new_eid")]])])

/-- A freshly constructed Issuer instance (no entityId, no data). -/
def issuerNew : Entity := Base.init emptyClient Issuer.ENDPOINT

/-- An Issuer instance bound to entityId abc with some local data. -/
def issuerAbc : Entity :=
  { client := emptyClient, entityId := .str "abc",
    data := .dict [("name", .str "x")], ENDPOINT := Issuer.ENDPOINT }

/-- An Assertion instance bound to entityId abc. -/
def assertionAbc : Entity :=
  { client := emptyClient, entityId := .str "abc",
    data := .null, ENDPOINT := Assertion.ENDPOINT }

/-- A freshly constructed BadgeClass instance. -/
def badgeClassNew : Entity := Base.init emptyClient BadgeClass.ENDPOINT

/-- C1: the claim says fetch/update/delete on an instance without an
entityId raise a UsageError and issue no network call.  In the source the
decorator `eid_required` never returns its wrapper `check_id`, so the
decorated class attributes are None and every invocation — entityId
present or not — raises TypeError (None is not callable) and issues no
request; the UsageError of the claim lives only in the never-installed
`check_id`, which would raise exactly the claimed error on a falsy
entityId.  This is the decorator bug the code itself documents intent
against. -/
theorem C1_eid_guard_never_installed :
    (∀ (e : Entity) (api : Api),
      Base.fetch e api = (.error noneNotCallable, [], e) ∧
      Base.update e api = (.error noneNotCallable, [], e) ∧
      Base.delete e api = (.error noneNotCallable, [], e)) ∧
    Base.fetch_attr = none ∧ Base.update_attr = none ∧ Base.delete_attr = none ∧
    (∀ (c : ClientState) (d : Val) (ep : String) (api : Api),
      check_id Base.delete_body
          { client := c, entityId := .null, data := d, ENDPOINT := ep } api =
        (.error (.exceptionMsg "entityId is required for this operation"), [],
          { client := c, entityId := .null, data := d, ENDPOINT := ep })) :=
  ⟨fun _ _ => ⟨rfl, rfl, rfl⟩, rfl, rfl, rfl, fun _ _ _ _ => rfl⟩

/-- C10: `set_data(d)` stores `d` as the instance data, overwrites
`entityId` exactly when the dict has an `entityId` key (keeping the prior
value otherwise), leaves the bound client and every other field
untouched, and returns the instance itself (the returned entity is the
updated state of `self`). -/
theorem C10_set_data_frame :
    ∀ (e : Entity) (fields : List (String × Val)),
      (Base.set_data e (.dict fields)).data = .dict fields ∧
      (Base.set_data e (.dict fields)).entityId =
        (if (Val.dict fields).containsKey "entityId" then
          (Val.dict fields).lookupKey "entityId"
        else e.entityId) ∧
      (Base.set_data e (.dict fields)).client = e.client ∧
      (Base.set_data e (.dict fields)).ENDPOINT = e.ENDPOINT := by
  intro e fields
  unfold Base.set_data
  by_cases h : (Val.dict fields).containsKey "entityId" = true <;> simp [h]

/-- C2: the claim (and the repo test suite) describe an
`Assertion.create` keyed by `badge_eid` or by `badge_name` plus
`issuer_eid`, POSTing to `/v2/badgeclasses/<resolved id>/assertions`.
The source method instead takes a positional `badgeclass` argument, puts
it in a top-level payload field, performs no resolution and no
ValidationError check, and always POSTs to `/v2/assertions` — never to a
badge class assertions sub-endpoint. -/
theorem C2_assertion_create_posts_to_assertions_collection :
    (∀ (self : Entity) (api : Api) (badgeclass recipient_email evidence : Val),
      (Assertion.create self api badgeclass recipient_email evidence).2.1 =
        [{ path := "/v2/assertions", method := "POST",
           data := some (.dict
             [ ("badgeclass", badgeclass),
               ("recipient", .dict [("type", .str "email"), ("identity", recipient_email)]),
               ("evidence", evidence) ]),
           params := none }]) ∧
    (Assertion.ENDPOINT == "/v2/badgeclasses/" ++ "bc_eid" ++ "/assertions") = false := by
  constructor
  · intro self api badgeclass recipient_email evidence
    simp only [Assertion.create]
    split
    · simp [Assertion.ENDPOINT]
    · split <;> simp [Assertion.ENDPOINT]
  · decide

/-- C3: with the Name Cache loaded for issuer test and already holding
the badge name, the claim (and the repo test
`test_create_badge_class_with_non_unique_name`) say `BadgeClass.create`
raises a DuplicateNameError and issues no request.  The source method
never reads the cache: for every cache content — including one that maps
the requested name — it issues the POST to `/v2/badgeclasses`, and with a
well-formed server response it returns True instead of raising. -/
theorem C3_badgeclass_create_ignores_name_cache :
    ∀ (cache : List (String × List (String × String))) (api : Api),
      (BadgeClass.create
          { client := { badgeNames := cache }, entityId := .null, data := .null,
            ENDPOINT := BadgeClass.ENDPOINT } api
          (.str "Speak Up!") (.str "idk") (.str "something") (.str "test")
          (.str "hahahaha") .null .null .null .null).2.1 =
        [{ path := "/v2/badgeclasses", method := "POST",
           data := some (.dict
             [ ("name", .str "Speak Up!"),
               ("image", .str "idk"),
               ("issuer", .str "test"),
               ("description", .str "something"),
               ("criteria_text", .str "hahahaha"),
               ("criteria_url", .null),
               ("alignments", .list []),
               ("tags", .list []),
               ("expires", .null) ]),
           params := none }] ∧
      (BadgeClass.create
          { client := { badgeNames := [("test", [("Speak Up!", "s0ziri1rZs6cNQVnHw")])] },
            entityId := .null, data := .null, ENDPOINT := BadgeClass.ENDPOINT }
          acceptingApi
          (.str "Speak Up!") (.str "idk") (.str "something") (.str "test")
          (.str "hahahaha") .null .null .null .null).1 = .ok (.bool true) := by
  intro cache api
  constructor
  · simp only [BadgeClass.create]
    split
    · next h => exact absurd h (by decide)
    · split
      · simp [BadgeClass.ENDPOINT, Val.truthy]
      · split <;> simp [BadgeClass.ENDPOINT, Val.truthy]
  · rfl

/-- C4: the claim says `revoke(reason)` issues a revoke request carrying
the reason, distinct from the one `delete()` issues.  In the source (a)
`revoke` is decorated by the broken `eid_required`, so the attribute is
None and every invocation raises TypeError with no request; and (b) even
the undecorated body ignores `reason`, attaches no payload, and issues a
DELETE to `/v2/assertions/<entityId>` — exactly the request of the
`delete` body on an Assertion instance. -/
theorem C4_revoke_identical_to_delete (e : Entity) (api : Api) (reason : Val)
    (h : e.ENDPOINT = Assertion.ENDPOINT) :
    Assertion.revoke e api reason = (.error noneNotCallable, [], e) ∧
    Assertion.revoke_body e api reason = Base.delete_body e api ∧
    (Assertion.revoke_body e api reason).2.1 =
      [{ path := Assertion.ENDPOINT ++ "/" ++ e.entityId.pyStr,
         method := "DELETE", data := none, params := none }] := by
  refine ⟨rfl, ?_, ?_⟩
  · unfold Assertion.revoke_body Base.delete_body Base.get_entity_ep
    rw [h]
  · simp only [Assertion.revoke_body]
    split <;> simp

/-- Witness for C4 at a concrete Assertion instance with entityId abc. -/
theorem C4_witness :
    Assertion.revoke assertionAbc failingApi (.str "spam") =
      (.error noneNotCallable, [], assertionAbc) ∧
    Assertion.revoke_body assertionAbc failingApi (.str "spam") =
      Base.delete_body assertionAbc failingApi :=
  ⟨(C4_revoke_identical_to_delete assertionAbc failingApi (.str "spam") rfl).1,
   (C4_revoke_identical_to_delete assertionAbc failingApi (.str "spam") rfl).2.1⟩

/-- C5 (amended): `BadgeClass.create` raises the criteria
ValidationError — with zero network calls — exactly when neither
`criteria_text` nor `criteria_url` is truthy (non-None and non-empty);
whenever one of them is truthy the POST is issued instead.  The original
claim said the error occurs only when both arguments are None, but the
source tests Python truthiness, so supplying an empty string still
raises. -/
theorem C5_criteria_error_iff_both_falsy :
    ∀ (self : Entity) (api : Api)
      (name image description issuer_eid criteria_text criteria_url
        alignment tags expires : Val),
      (BadgeClass.create self api name image description issuer_eid
          criteria_text criteria_url alignment tags expires =
        (.error (.exceptionMsg criteriaRequiredMsg), [], self))
      ↔ (criteria_text.truthy || criteria_url.truthy) = false := by
  intro self api name image description issuer_eid ct cu alignment tags expires
  constructor
  · intro h
    by_contra hc
    have htrace : (BadgeClass.create self api name image description issuer_eid
        ct cu alignment tags expires).2.1 ≠ [] := by
      simp only [BadgeClass.create]
      rw [if_neg (by simpa using hc)]
      split
      · simp
      · split <;> simp
    rw [h] at htrace
    exact htrace rfl
  · intro h
    simp only [BadgeClass.create]
    rw [if_pos (by simpa using h)]

/-- C5 counterexample: with `criteria_text` supplied as the empty string
(a value distinct from None) and `criteria_url` omitted, the claim as
stated promises no validation error, yet the source raises it. -/
theorem C5_counterexample_empty_string_still_raises :
    (Val.str "").isNull = false ∧
    BadgeClass.create badgeClassNew failingApi
        (.str "n") (.str "img") (.str "desc") (.str "iss")
        (.str "") .null .null .null .null =
      (.error (.exceptionMsg criteriaRequiredMsg), [], badgeClassNew) :=
  ⟨rfl, rfl⟩

/-- C6: no failing operation leaves partial state on the entity.  For the
two undecorated create methods (Issuer, BadgeClass) and for
Assertion.create, any run that raises leaves the instance exactly as it
was (`set_data` runs only on a successful response); `update` — both the
faithful invocation (which raises TypeError at once) and its body (whose
re-fetch line itself raises before touching the data) — never changes the
entity state at all. -/
theorem C6_failed_ops_leave_state_unchanged :
    (∀ (e : Entity) (api : Api) (name description email url : Val) (pe : PyErr),
      (Issuer.create e api name description email url).1 = .error pe →
      (Issuer.create e api name description email url).2.2 = e) ∧
    (∀ (e : Entity) (api : Api)
        (name image description issuer_eid ct cu alignment tags expires : Val)
        (pe : PyErr),
      (BadgeClass.create e api name image description issuer_eid
          ct cu alignment tags expires).1 = .error pe →
      (BadgeClass.create e api name image description issuer_eid
          ct cu alignment tags expires).2.2 = e) ∧
    (∀ (e : Entity) (api : Api) (badgeclass recipient_email evidence : Val)
        (pe : PyErr),
      (Assertion.create e api badgeclass recipient_email evidence).1 = .error pe →
      (Assertion.create e api badgeclass recipient_email evidence).2.2 = e) ∧
    (∀ (e : Entity) (api : Api),
      (Base.update_body e api).2.2 = e ∧ (Base.update e api).2.2 = e) := by
  refine ⟨?_, ?_, ?_, ?_⟩
  · intro e api name description email url pe h
    revert h
    simp only [Issuer.create]
    split
    · simp
    · split <;> simp
  · intro e api name image description issuer_eid ct cu alignment tags expires pe h
    revert h
    simp only [BadgeClass.create]
    split
    · simp
    · split
      · simp
      · split <;> simp
  · intro e api badgeclass recipient_email evidence pe h
    revert h
    simp only [Assertion.create]
    split
    · simp
    · split <;> simp
  · intro e api
    constructor
    · simp only [Base.update_body]
      split <;> simp [Base.fetch_with_extra_arg, Base.fetch_attr, eid_required]
    · rfl

/-- Witness for C6: concrete failing create and update runs leave the
concrete instances untouched. -/
theorem C6_witness :
    (Issuer.create issuerNew failingApi
        (.str "Fedora") (.str "d") (.str "e") (.str "u")).2.2 = issuerNew ∧
    (BadgeClass.create badgeClassNew failingApi
        (.str "n") (.str "img") (.str "desc") (.str "iss")
        (.str "c") .null .null .null .null).2.2 = badgeClassNew ∧
    (Assertion.create assertionAbc failingApi
        (.str "bc_eid") (.str "jane@mailg.com") .null).2.2 = assertionAbc ∧
    (Base.update_body issuerAbc failingApi).2.2 = issuerAbc :=
  ⟨C6_failed_ops_leave_state_unchanged.1 issuerNew failingApi
      (.str "Fedora") (.str "d") (.str "e") (.str "u")
      (.apiError { status := 500, body := .null }) rfl,
   C6_failed_ops_leave_state_unchanged.2.1 badgeClassNew failingApi
      (.str "n") (.str "img") (.str "desc") (.str "iss")
      (.str "c") .null .null .null .null
      (.apiError { status := 500, body := .null }) rfl,
   C6_failed_ops_leave_state_unchanged.2.2.1 assertionAbc failingApi
      (.str "bc_eid") (.str "jane@mailg.com") .null
      (.apiError { status := 500, body := .null }) rfl,
   (C6_failed_ops_leave_state_unchanged.2.2.2 issuerAbc failingApi).1⟩

/-- C7: the claim says `update()` PUTs the current local data and then
re-fetches after a successful write.  In the source the decorated
`update` attribute is None, so every invocation raises TypeError with no
request; and even the body, after a successful PUT of `self.data` to the
entity endpoint, raises TypeError at the `self.fetch(...)` line (the
`fetch` attribute is itself None, and `fetch` takes no positional
argument anyway), so the re-fetch never happens and the documented
response is never returned. -/
theorem C7_update_raises_and_never_refetches (e : Entity) (api : Api) (v : Val)
    (h : api { path := Base.get_entity_ep e, method := "PUT",
               data := some e.data, params := none } = .ok v) :
    Base.update e api = (.error noneNotCallable, [], e) ∧
    Base.update_body e api =
      (.error noneNotCallable,
        [{ path := Base.get_entity_ep e, method := "PUT",
           data := some e.data, params := none }], e) := by
  refine ⟨rfl, ?_⟩
  simp [Base.update_body, h, Base.fetch_with_extra_arg, Base.fetch_attr, eid_required]

/-- Witness for C7: a concrete Issuer whose PUT is accepted by the
server still sees `update` raise TypeError. -/
theorem C7_witness :
    Base.update issuerAbc acceptingApi = (.error noneNotCallable, [], issuerAbc) ∧
    Base.update_body issuerAbc acceptingApi =
      (.error noneNotCallable,
        [{ path := Base.get_entity_ep issuerAbc, method := "PUT",
           data := some issuerAbc.data, params := none }], issuerAbc) :=
  C7_update_raises_and_never_refetches issuerAbc acceptingApi
    (.dict [("result", .list [Val.dict [("entityId", .str "new_eid")]])]) rfl

/-- C8: the claim says `edit_staff` validates its enums locally, POSTs
the payload to the legacy v1 staff endpoint keyed by entityId, and
re-fetches afterward.  In the source the decorated attribute is None, so
every invocation raises TypeError and issues nothing; the body does
validate the two enums and POST `{action, email, role}` to the slugged
v1 endpoint, but its final `self.fetch(...)` line raises TypeError, so
the re-fetch never happens. -/
theorem C8_edit_staff_validation_and_refetch_crash :
    (∀ (e : Entity) (api : Api) (action email role : String),
      Issuer.edit_staff e api action email role = (.error noneNotCallable, [], e)) ∧
    (∀ (e : Entity) (api : Api) (email role : String),
      Issuer.edit_staff_body e api "destroy" email role =
        (.error (.exceptionMsg "Action must be one of add, modify or remove"), [], e)) ∧
    (∀ (e : Entity) (api : Api) (email : String),
      Issuer.edit_staff_body e api "add" email "boss" =
        (.error (.exceptionMsg "Action must be one of owner, editor, or staff"), [], e)) ∧
    (∀ (e : Entity) (api : Api) (email : String) (v : Val),
      api { path := formatSlug Issuer.V1_ENDPOINT e.entityId.pyStr, method := "POST",
            data := some (.dict
              [("action", .str "add"), ("email", .str email), ("role", .str "staff")]),
            params := none } = .ok v →
      Issuer.edit_staff_body e api "add" email "staff" =
        (.error noneNotCallable,
          [{ path := formatSlug Issuer.V1_ENDPOINT e.entityId.pyStr, method := "POST",
             data := some (.dict
               [("action", .str "add"), ("email", .str email), ("role", .str "staff")]),
             params := none }], e)) := by
  refine ⟨fun _ _ _ _ _ => rfl, fun _ _ _ _ => rfl, fun _ _ _ => rfl, ?_⟩
  intro e api email v h
  simp [Issuer.edit_staff_body, h, Base.fetch_with_extra_arg, Base.fetch_attr,
    eid_required]

/-- Witness for C8: a concrete issuer with id abc and an accepting
server; the invocation raises TypeError, and the body POSTs to
`/v1/issuer/issuers/abc/staff` and then raises TypeError instead of
re-fetching. -/
theorem C8_witness :
    Issuer.edit_staff issuerAbc acceptingApi "add" "jane@x.org" "staff" =
      (.error noneNotCallable, [], issuerAbc) ∧
    Issuer.edit_staff_body issuerAbc acceptingApi "add" "jane@x.org" "staff" =
      (.error noneNotCallable,
        [{ path := formatSlug Issuer.V1_ENDPOINT (Val.str "abc").pyStr, method := "POST",
           data := some (.dict
             [("action", .str "add"), ("email", .str "jane@x.org"), ("role", .str "staff")]),
           params := none }], issuerAbc) :=
  ⟨C8_edit_staff_validation_and_refetch_crash.1 issuerAbc acceptingApi
      "add" "jane@x.org" "staff",
   C8_edit_staff_validation_and_refetch_crash.2.2.2 issuerAbc acceptingApi
      "jane@x.org" (.dict [("result", .list [Val.dict [("entityId", .str "new_eid")]])]) rfl⟩

/-- C9: the claim says `fetch_assertions(recipient)` carries a non-None
recipient as a query parameter and that requests for distinct recipients
differ.  In the source the decorated attribute is None, so every
invocation raises TypeError; the body accepts `recipient` (and `num`)
but never uses them: it always issues the same GET to
`/v2/badgeclasses/<entityId>/assertions` with no `params` at all, so the
request is identical for every recipient. -/
theorem C9_fetch_assertions_ignores_recipient :
    (∀ (e : Entity) (api : Api) (recipient num : Val),
      BadgeClass.fetch_assertions e api recipient num = (.error noneNotCallable, [], e)) ∧
    (∀ (e : Entity) (api : Api) (recipient num : Val),
      (BadgeClass.fetch_assertions_body e api recipient num).2.1 =
        [{ path := BadgeClass.ENDPOINT ++ "/" ++ e.entityId.pyStr ++ "/assertions",
           method := "GET", data := none, params := none }]) ∧
    (∀ (e : Entity) (api : Api) (r1 n1 r2 n2 : Val),
      BadgeClass.fetch_assertions_body e api r1 n1 =
        BadgeClass.fetch_assertions_body e api r2 n2) := by
  refine ⟨fun _ _ _ _ => rfl, ?_, fun _ _ _ _ _ _ => rfl⟩
  intro e api recipient num
  simp only [BadgeClass.fetch_assertions_body]
  split
  · simp
  · split <;> simp
